import Mathlib

/-!
# CTCPSSLServer (Socket/TCPSSLServer.cpp)

A shallow embedding of the TLS server socket of socket-cpp.  The TCP transport
(`m_TCPServer`), the OpenSSL engine and the helpers inherited from
`ASecureSocket` are collaborators whose code is outside `TCPSSLServer.cpp`; they
are fields of `Engine`, so every statement below quantifies over all of their
possible results.  Each member function returns its C++ result together with
the updated client socket (when it takes a non-const reference) and the list of
collaborator calls made by its own body, in program order; what a collaborator
does internally is not part of that list.  No collaborator is called twice with
the same arguments inside one member function, so a result that is a function
of the arguments loses no generality.
-/

namespace TCPSSLServer

/-! ## Data model -/

/-- A raw pointer (`SSL*`, `SSL_CTX*`); `0` is the null pointer. -/
abbrev Ptr := Nat

/-- The C++ `nullptr`. -/
def nullptr : Ptr := 0

/-- The platform socket descriptor (`Socket`, an `int`). -/
abbrev Socket := Int

/-- The fields of `ASecureSocket::SSLSocket` that `TCPSSLServer.cpp` touches. -/
structure SSLSocket where
  m_SockFd : Socket
  m_pSSL : Ptr
  m_pCTXSSL : Ptr
  deriving DecidableEq, Repr

/-- The configuration members of `ASecureSocket` read by `Listen`. -/
structure Config where
  m_strSSLCertFile : String
  m_strCAFile : String
  m_strSSLKeyFile : String
  deriving DecidableEq, Repr

/-- Implicit conversion of a `size_t` to the `int num` parameter of
`SSL_read` / `SSL_write` (32-bit two's complement wrap-around). -/
def toInt (u : Nat) : Int :=
  if u % 2 ^ 32 < 2 ^ 31 then ((u % 2 ^ 32 : Nat) : Int) else ((u % 2 ^ 32 : Nat) : Int) - 2 ^ 32

/-- One variadic argument of `StringFormat`. -/
inductive FmtArg where
  | int (i : Int)
  | str (s : String)
  deriving DecidableEq, Repr

/-- Expansion of a printf-style format over its characters: `%d` consumes an
integer argument, `%s` a string argument, every other character is copied. -/
def formatChars : List Char → List FmtArg → List Char
  | [], _ => []
  | [c], _ => [c]
  | c :: d :: rest, args =>
    if c = '%' ∧ d = 'd' then
      match args with
      | FmtArg.int i :: args2 => (toString i).data ++ formatChars rest args2
      | _ => c :: formatChars (d :: rest) args
    else if c = '%' ∧ d = 's' then
      match args with
      | FmtArg.str s :: args2 => s.data ++ formatChars rest args2
      | _ => c :: formatChars (d :: rest) args
    else c :: formatChars (d :: rest) args

/-- Modelled from the spec: `StringFormat` is defined outside
`TCPSSLServer.cpp`; the spec gives the shape of its output,
`"[Component][Error] <description> (Error=<code> | <engine reason>)"`, which is
the printf expansion of the format strings passed to it. -/
def StringFormat (fmt : String) (args : List FmtArg) : String :=
  String.mk (formatChars fmt.data args)

/-- A call made by the server to one of its collaborators, with its arguments. -/
inductive Event where
  | TCPListen (fd : Socket)
  | TCPDisconnect (fd : Socket)
  | SetUpCtxServer (s : SSLSocket)
  | ShutdownSSL (s : SSLSocket)
  | Log (msg : String)
  | SSL_CTX_set_cert_verify_callback (ctx : Ptr)
  | SSL_CTX_use_certificate_file (ctx : Ptr) (file : String)
  | SSL_CTX_load_verify_locations (ctx : Ptr) (file : String)
  | SSL_CTX_set_verify_depth (ctx : Ptr) (depth : Int)
  | SSL_CTX_use_PrivateKey_file (ctx : Ptr) (file : String)
  | SSL_new (ctx : Ptr)
  | SSL_set_fd (ssl : Ptr) (fd : Socket)
  | SSL_accept (ssl : Ptr)
  | SSL_get_error (ssl : Ptr) (ret : Int)
  | ERR_print_errors_fp
  | SSL_read (ssl : Ptr) (num : Int)
  | SSL_write (ssl : Ptr) (buf : List Char) (num : Int)
  deriving DecidableEq, Repr

/-- The collaborators of `CTCPSSLServer`: the TCP server `m_TCPServer`, the
helpers of `ASecureSocket` and the OpenSSL calls.  Each field gives the result
of the call as a function of its arguments. -/
structure Engine where
  /-- The call `m_TCPServer.Listen(fd)`: success flag and the descriptor written
  to the reference argument. -/
  TCPListen : Socket → Bool × Socket
  /-- The call `m_TCPServer.Disconnect(fd)`. -/
  TCPDisconnect : Socket → Bool
  /-- The helper `ASecureSocket::SetUpCtxServer(SSLSocket&)`. -/
  SetUpCtxServer : SSLSocket → SSLSocket
  /-- The helper `ASecureSocket::ShutdownSSL(SSLSocket&)`. -/
  ShutdownSSL : SSLSocket → SSLSocket
  SSL_CTX_use_certificate_file : Ptr → String → Int
  SSL_CTX_load_verify_locations : Ptr → String → Int
  SSL_CTX_use_PrivateKey_file : Ptr → String → Int
  SSL_new : Ptr → Ptr
  SSL_accept : Ptr → Int
  SSL_get_error : Ptr → Int → Int
  GetSSLErrorString : Int → String
  /-- The call `SSL_read(ssl, buf, num)`: return value and bytes stored in `buf`. -/
  SSL_read : Ptr → Int → Int × List Char
  SSL_write : Ptr → List Char → Int → Int

/-! ## Operations -/

/-- `CTCPSSLServer::Receive` (lines 113-126): result, buffer contents, calls. -/
def Receive (env : Engine) (ClientSocket : SSLSocket) (uSize : Nat) :
    Int × List Char × List Event :=
  let r := env.SSL_read ClientSocket.m_pSSL (toInt uSize)
  let iBytesRcvd := r.1
  if iBytesRcvd < 0 then
    (iBytesRcvd, r.2,
      [Event.SSL_read ClientSocket.m_pSSL (toInt uSize),
       Event.SSL_get_error ClientSocket.m_pSSL iBytesRcvd,
       Event.Log (StringFormat "[TCPSSLServer][Error] SSL_read failed (Error=%d | %s)"
         [FmtArg.int iBytesRcvd,
          FmtArg.str (env.GetSSLErrorString (env.SSL_get_error ClientSocket.m_pSSL iBytesRcvd))])])
  else
    (iBytesRcvd, r.2, [Event.SSL_read ClientSocket.m_pSSL (toInt uSize)])

/-- `CTCPSSLServer::Send(const SSLSocket&, const char*, size_t)` (lines 131-144). -/
def Send (env : Engine) (ClientSocket : SSLSocket) (pData : List Char) (uSize : Nat) :
    Bool × List Event :=
  let iBytesSent := env.SSL_write ClientSocket.m_pSSL pData (toInt uSize)
  if iBytesSent ≤ 0 then
    (false,
      [Event.SSL_write ClientSocket.m_pSSL pData (toInt uSize),
       Event.SSL_get_error ClientSocket.m_pSSL iBytesSent,
       Event.Log (StringFormat "[TCPSSLServer][Error] SSL_write failed (Error=%d | %s)"
         [FmtArg.int iBytesSent,
          FmtArg.str (env.GetSSLErrorString (env.SSL_get_error ClientSocket.m_pSSL iBytesSent))])])
  else
    (true, [Event.SSL_write ClientSocket.m_pSSL pData (toInt uSize)])

/-- `CTCPSSLServer::Send(const SSLSocket&, const std::string&)` (lines 146-151);
the string is its sequence of chars, `length()` their number. -/
def Send_string (env : Engine) (ClientSocket : SSLSocket) (strData : List Char) :
    Bool × List Event :=
  let inner := Send env ClientSocket strData strData.length
  (true, inner.2)

/-- `CTCPSSLServer::Send(const SSLSocket&, const std::vector<char>&)` (lines 153-157). -/
def Send_vector (env : Engine) (ClientSocket : SSLSocket) (Data : List Char) :
    Bool × List Event :=
  let inner := Send env ClientSocket Data Data.length
  (true, inner.2)

/-- `CTCPSSLServer::Disconnect` (lines 159-167). -/
def Disconnect (env : Engine) (ClientSocket : SSLSocket) : Bool × SSLSocket × List Event :=
  let s1 := env.ShutdownSSL ClientSocket
  (true, s1, [Event.ShutdownSSL ClientSocket, Event.TCPDisconnect s1.m_SockFd])

/-- `Listen`, lines 80-103: session creation and the server-side handshake. -/
def Listen_handshake (env : Engine) (s : SSLSocket) (t : List Event) :
    Bool × SSLSocket × List Event :=
  let s1 : SSLSocket := { s with m_pSSL := env.SSL_new s.m_pCTXSSL }
  let t1 := t ++ [Event.SSL_new s.m_pCTXSSL, Event.SSL_set_fd s1.m_pSSL s1.m_SockFd,
                  Event.SSL_accept s1.m_pSSL]
  let iSSLErr := env.SSL_accept s1.m_pSSL
  if iSSLErr ≤ 0 then
    (false, env.ShutdownSSL s1,
      t1 ++ [Event.SSL_get_error s1.m_pSSL iSSLErr,
             Event.Log (StringFormat "[TCPSSLServer][Error] accept failed. (Error=%d | %s)"
               [FmtArg.int iSSLErr,
                FmtArg.str (env.GetSSLErrorString (env.SSL_get_error s1.m_pSSL iSSLErr))]),
             Event.ERR_print_errors_fp,
             Event.ShutdownSSL s1])
  else
    (true, s1, t1)

/-- `Listen`, lines 61-78 and onwards: the private-key step. -/
def Listen_key (env : Engine) (cfg : Config) (s : SSLSocket) (t : List Event) :
    Bool × SSLSocket × List Event :=
  if cfg.m_strSSLKeyFile ≠ "" then
    if env.SSL_CTX_use_PrivateKey_file s.m_pCTXSSL cfg.m_strSSLKeyFile ≤ 0 then
      (false, s,
        t ++ [Event.SSL_CTX_use_PrivateKey_file s.m_pCTXSSL cfg.m_strSSLKeyFile,
              Event.Log "[TCPSSLServer][Error] Loading key file failed."])
    else
      Listen_handshake env s
        (t ++ [Event.SSL_CTX_use_PrivateKey_file s.m_pCTXSSL cfg.m_strSSLKeyFile])
  else
    Listen_handshake env s t

/-- `Listen`, lines 48-60 and onwards: the trusted-CA step. -/
def Listen_CA (env : Engine) (cfg : Config) (s : SSLSocket) (t : List Event) :
    Bool × SSLSocket × List Event :=
  if cfg.m_strCAFile ≠ "" then
    if env.SSL_CTX_load_verify_locations s.m_pCTXSSL cfg.m_strCAFile = 0 then
      (false, s,
        t ++ [Event.SSL_CTX_load_verify_locations s.m_pCTXSSL cfg.m_strCAFile,
              Event.Log "[TCPSSLServer][Error] Loading CA file failed."])
    else
      Listen_key env cfg s
        (t ++ [Event.SSL_CTX_load_verify_locations s.m_pCTXSSL cfg.m_strCAFile,
               Event.SSL_CTX_set_verify_depth s.m_pCTXSSL 1])
  else
    Listen_key env cfg s t

/-- `Listen`, lines 37-47 and onwards: the server-certificate step. -/
def Listen_cert (env : Engine) (cfg : Config) (s : SSLSocket) (t : List Event) :
    Bool × SSLSocket × List Event :=
  if cfg.m_strSSLCertFile ≠ "" then
    if env.SSL_CTX_use_certificate_file s.m_pCTXSSL cfg.m_strSSLCertFile ≤ 0 then
      (false, s,
        t ++ [Event.SSL_CTX_use_certificate_file s.m_pCTXSSL cfg.m_strSSLCertFile,
              Event.Log "[TCPSSLServer][Error] Loading cert file failed."])
    else
      Listen_CA env cfg s
        (t ++ [Event.SSL_CTX_use_certificate_file s.m_pCTXSSL cfg.m_strSSLCertFile])
  else
    Listen_CA env cfg s t

/-- `CTCPSSLServer::Listen` (lines 21-109): result, client socket on return,
collaborator calls in program order. -/
def Listen (env : Engine) (cfg : Config) (ClientSocket : SSLSocket) :
    Bool × SSLSocket × List Event :=
  let acc := env.TCPListen ClientSocket.m_SockFd
  let s1 : SSLSocket := { ClientSocket with m_SockFd := acc.2 }
  if acc.1 then
    let s2 := env.SetUpCtxServer s1
    if s2.m_pCTXSSL = nullptr then
      (false, s2,
        [Event.TCPListen ClientSocket.m_SockFd, Event.SetUpCtxServer s1,
         Event.Log "[TCPSSLServer][Error] SSL CTX failed."])
    else
      Listen_cert env cfg s2
        [Event.TCPListen ClientSocket.m_SockFd, Event.SetUpCtxServer s1,
         Event.SSL_CTX_set_cert_verify_callback s2.m_pCTXSSL]
  else
    (false, s1,
      [Event.TCPListen ClientSocket.m_SockFd,
       Event.Log "[TCPSSLServer][Error] Unable to accept an incoming TCP connection with a client."])

/-! ## Observations on call lists -/

/-- The message of a logging call. -/
def Event.logMsg : Event → Option String
  | Event.Log m => some m
  | _ => none

/-- The messages passed to `m_oLog`, in order. -/
def logs (t : List Event) : List String := t.filterMap Event.logMsg

/-- Recognises a call of `SSL_write`. -/
def Event.isSSL_write : Event → Bool
  | Event.SSL_write _ _ _ => true
  | _ => false

/-- Recognises a call of `SSL_read`. -/
def Event.isSSL_read : Event → Bool
  | Event.SSL_read _ _ => true
  | _ => false

/-- The string `msg` starts with the string `pre`. -/
def beginsWith (msg pre : String) : Prop := pre.data <+: msg.data

instance (msg pre : String) : Decidable (beginsWith msg pre) := by
  unfold beginsWith; infer_instance

/-- The text `head (Error=code | reason)` of a diagnostic. -/
def errorMessage (head : String) (code : Int) (reason : String) : String :=
  head ++ " (Error=" ++ toString code ++ " | " ++ reason ++ ")"

/-- Recognises a call of the handshake `SSL_accept`. -/
def Event.isSSL_accept : Event → Bool
  | Event.SSL_accept _ => true
  | _ => false

/-- Recognises a call of `ShutdownSSL`. -/
def Event.isShutdownSSL : Event → Bool
  | Event.ShutdownSSL _ => true
  | _ => false

/-- Recognises a call of one of the three file loaders. -/
def Event.isLoader : Event → Bool
  | Event.SSL_CTX_use_certificate_file _ _ => true
  | Event.SSL_CTX_load_verify_locations _ _ => true
  | Event.SSL_CTX_use_PrivateKey_file _ _ => true
  | _ => false

/-- Recognises the calls that create the session and run the handshake:
`SSL_new`, `SSL_set_fd`, `SSL_accept`. -/
def Event.isSession : Event → Bool
  | Event.SSL_new _ => true
  | Event.SSL_set_fd _ _ => true
  | Event.SSL_accept _ => true
  | _ => false

/-- Recognises a call of the verification-depth setter. -/
def Event.isSetVerifyDepth : Event → Bool
  | Event.SSL_CTX_set_verify_depth _ _ => true
  | _ => false

/-- The client socket once `m_TCPServer.Listen` has stored the accepted descriptor. -/
def acceptedSocket (env : Engine) (s : SSLSocket) : SSLSocket :=
  { s with m_SockFd := (env.TCPListen s.m_SockFd).2 }

/-- The client socket once `SetUpCtxServer` has run on the accepted socket. -/
def ctxSocket (env : Engine) (s : SSLSocket) : SSLSocket :=
  env.SetUpCtxServer (acceptedSocket env s)

/-- The context pointer held by the client socket after `SetUpCtxServer`. -/
def attachedCtx (env : Engine) (s : SSLSocket) : Ptr := (ctxSocket env s).m_pCTXSSL

/-- The client socket once `SSL_new` has stored the session handle. -/
def sessionSocket (env : Engine) (s : SSLSocket) : SSLSocket :=
  { ctxSocket env s with m_pSSL := env.SSL_new (attachedCtx env s) }

/-- The value `SSL_accept` returns for the session created from the attached context. -/
def handshakeResult (env : Engine) (s : SSLSocket) : Int :=
  env.SSL_accept (env.SSL_new (attachedCtx env s))

/-- The certificate step fails: its path is non-empty and the loader's result
is not strictly positive. -/
def certFails (env : Engine) (cfg : Config) (s : SSLSocket) : Prop :=
  cfg.m_strSSLCertFile ≠ "" ∧
    env.SSL_CTX_use_certificate_file (attachedCtx env s) cfg.m_strSSLCertFile ≤ 0

/-- The CA step fails: its path is non-empty and the loader's result is zero. -/
def caFails (env : Engine) (cfg : Config) (s : SSLSocket) : Prop :=
  cfg.m_strCAFile ≠ "" ∧
    env.SSL_CTX_load_verify_locations (attachedCtx env s) cfg.m_strCAFile = 0

/-- The private-key step fails: its path is non-empty and the loader's result
is not strictly positive. -/
def keyFails (env : Engine) (cfg : Config) (s : SSLSocket) : Prop :=
  cfg.m_strSSLKeyFile ≠ "" ∧
    env.SSL_CTX_use_PrivateKey_file (attachedCtx env s) cfg.m_strSSLKeyFile ≤ 0

/-- The handshake `SSL_accept` is reached: the accept succeeded, the context is
non-null and no file-loading step failed. -/
def handshakeReached (env : Engine) (cfg : Config) (s : SSLSocket) : Prop :=
  (env.TCPListen s.m_SockFd).1 = true ∧ attachedCtx env s ≠ nullptr ∧
    ¬ certFails env cfg s ∧ ¬ caFails env cfg s ∧ ¬ keyFails env cfg s

/-- The calls that precede the file-loading steps on an accepted connection
with a non-null context. -/
def setupCalls (env : Engine) (s : SSLSocket) : List Event :=
  [Event.TCPListen s.m_SockFd, Event.SetUpCtxServer (acceptedSocket env s),
   Event.SSL_CTX_set_cert_verify_callback (attachedCtx env s)]

/-- The engine calls of a certificate step that does not fail. -/
def certCalls (env : Engine) (cfg : Config) (s : SSLSocket) : List Event :=
  if cfg.m_strSSLCertFile ≠ "" then
    [Event.SSL_CTX_use_certificate_file (attachedCtx env s) cfg.m_strSSLCertFile]
  else []

/-- The engine calls of a CA step that does not fail. -/
def caCalls (env : Engine) (cfg : Config) (s : SSLSocket) : List Event :=
  if cfg.m_strCAFile ≠ "" then
    [Event.SSL_CTX_load_verify_locations (attachedCtx env s) cfg.m_strCAFile,
     Event.SSL_CTX_set_verify_depth (attachedCtx env s) 1]
  else []

/-- The engine calls of a private-key step that does not fail. -/
def keyCalls (env : Engine) (cfg : Config) (s : SSLSocket) : List Event :=
  if cfg.m_strSSLKeyFile ≠ "" then
    [Event.SSL_CTX_use_PrivateKey_file (attachedCtx env s) cfg.m_strSSLKeyFile]
  else []

/-- The loader calls of a `Listen` in which no step fails: certificate, CA,
private key, each present only when its path is non-empty. -/
def loaderPlan (env : Engine) (cfg : Config) (s : SSLSocket) : List Event :=
  (if cfg.m_strSSLCertFile ≠ "" then
      [Event.SSL_CTX_use_certificate_file (attachedCtx env s) cfg.m_strSSLCertFile] else [])
  ++ (if cfg.m_strCAFile ≠ "" then
      [Event.SSL_CTX_load_verify_locations (attachedCtx env s) cfg.m_strCAFile] else [])
  ++ (if cfg.m_strSSLKeyFile ≠ "" then
      [Event.SSL_CTX_use_PrivateKey_file (attachedCtx env s) cfg.m_strSSLKeyFile] else [])

/-- Recognises a file-loader call or a session call (`SSL_new`, `SSL_set_fd`,
`SSL_accept`). -/
def Event.isLoaderOrSession : Event → Bool
  | Event.SSL_CTX_use_certificate_file _ _ => true
  | Event.SSL_CTX_load_verify_locations _ _ => true
  | Event.SSL_CTX_use_PrivateKey_file _ _ => true
  | Event.SSL_new _ => true
  | Event.SSL_set_fd _ _ => true
  | Event.SSL_accept _ => true
  | _ => false

/-- Recognises a logging call or a call of `ShutdownSSL`. -/
def Event.isLogOrShutdown : Event → Bool
  | Event.Log _ => true
  | Event.ShutdownSSL _ => true
  | _ => false

/-- The three calls that create the session and run the handshake. -/
def sessionCalls (env : Engine) (s : SSLSocket) : List Event :=
  [Event.SSL_new (attachedCtx env s),
   Event.SSL_set_fd (sessionSocket env s).m_pSSL (sessionSocket env s).m_SockFd,
   Event.SSL_accept (sessionSocket env s).m_pSSL]

/-- The diagnostic logged when the handshake fails. -/
def acceptFailedMessage (env : Engine) (s : SSLSocket) : String :=
  errorMessage "[TCPSSLServer][Error] accept failed." (handshakeResult env s)
    (env.GetSSLErrorString
      (env.SSL_get_error (sessionSocket env s).m_pSSL (handshakeResult env s)))

instance (env : Engine) (cfg : Config) (s : SSLSocket) : Decidable (certFails env cfg s) := by
  unfold certFails; infer_instance

instance (env : Engine) (cfg : Config) (s : SSLSocket) : Decidable (caFails env cfg s) := by
  unfold caFails; infer_instance

instance (env : Engine) (cfg : Config) (s : SSLSocket) : Decidable (keyFails env cfg s) := by
  unfold keyFails; infer_instance

instance (env : Engine) (cfg : Config) (s : SSLSocket) :
    Decidable (handshakeReached env cfg s) := by
  unfold handshakeReached; infer_instance

/-- An engine used for concrete runs: the accept yields descriptor 7, the
context is created at address 100, sessions at context + 100; a file loads
unless it is named "bad.pem"; the handshake succeeds; reads and writes
transfer the requested number of bytes. -/
def demoEngine : Engine where
  TCPListen := fun _ => (true, 7)
  TCPDisconnect := fun _ => true
  SetUpCtxServer := fun s => { s with m_pCTXSSL := 100 }
  ShutdownSSL := fun s => { s with m_pSSL := nullptr, m_pCTXSSL := nullptr }
  SSL_CTX_use_certificate_file := fun _ f => if f = "bad.pem" then 0 else 1
  SSL_CTX_load_verify_locations := fun _ f => if f = "bad.pem" then 0 else 1
  SSL_CTX_use_PrivateKey_file := fun _ f => if f = "bad.pem" then 0 else 1
  SSL_new := fun ctx => ctx + 100
  SSL_accept := fun _ => 1
  SSL_get_error := fun _ _ => 1
  GetSSLErrorString := fun _ => "SSL_ERROR_SSL"
  SSL_read := fun _ num => (num, [])
  SSL_write := fun _ _ num => num

/-- The engine `demoEngine` with a handshake that fails with result -1. -/
def refusingEngine : Engine := { demoEngine with SSL_accept := fun _ => -1 }

/-- A configuration whose certificate file cannot be loaded by `demoEngine`. -/
def badCertConfig : Config :=
  { m_strSSLCertFile := "bad.pem", m_strCAFile := "", m_strSSLKeyFile := "" }

/-- A configuration whose certificate and key load in `demoEngine` while its CA
file does not. -/
def badCAConfig : Config :=
  { m_strSSLCertFile := "cert.pem", m_strCAFile := "bad.pem", m_strSSLKeyFile := "key.pem" }

/-- A configuration whose certificate and CA load in `demoEngine` while its key
file does not. -/
def badKeyConfig : Config :=
  { m_strSSLCertFile := "cert.pem", m_strCAFile := "ca.pem", m_strSSLKeyFile := "bad.pem" }

/-- A configuration with certificate, CA and key files that `demoEngine` loads. -/
def fullConfig : Config :=
  { m_strSSLCertFile := "cert.pem", m_strCAFile := "ca.pem", m_strSSLKeyFile := "key.pem" }

/-- A freshly constructed `SSLSocket`: invalid descriptor, null pointers. -/
def freshSocket : SSLSocket := { m_SockFd := -1, m_pSSL := nullptr, m_pCTXSSL := nullptr }

/-! ## Formatting lemmas -/

theorem beginsWith_errorMessage (head : String) (code : Int) (reason : String) :
    beginsWith (errorMessage head code reason) head := by
  unfold beginsWith errorMessage
  simp only [String.data_append, List.append_assoc]
  exact List.prefix_append _ _

theorem StringFormat_write (c : Int) (r : String) :
    StringFormat "[TCPSSLServer][Error] SSL_write failed (Error=%d | %s)"
      [FmtArg.int c, FmtArg.str r]
    = errorMessage "[TCPSSLServer][Error] SSL_write failed" c r := by
  apply String.ext
  simp [StringFormat, formatChars, errorMessage]

theorem StringFormat_read (c : Int) (r : String) :
    StringFormat "[TCPSSLServer][Error] SSL_read failed (Error=%d | %s)"
      [FmtArg.int c, FmtArg.str r]
    = errorMessage "[TCPSSLServer][Error] SSL_read failed" c r := by
  apply String.ext
  simp [StringFormat, formatChars, errorMessage]

theorem StringFormat_accept (c : Int) (r : String) :
    StringFormat "[TCPSSLServer][Error] accept failed. (Error=%d | %s)"
      [FmtArg.int c, FmtArg.str r]
    = errorMessage "[TCPSSLServer][Error] accept failed." c r := by
  apply String.ext
  simp [StringFormat, formatChars, errorMessage]

/-! ## Encrypted I/O -/

/-- C3: the primitive `Send` calls `SSL_write` exactly once, returns true exactly
when the engine result is strictly positive, logs exactly one message starting
with "[TCPSSLServer][Error] SSL_write failed" exactly when that result is
non-positive (zero included), and logs nothing on success. -/
theorem Send_result_and_log (env : Engine) (s : SSLSocket) (pData : List Char) (uSize : Nat) :
    (Send env s pData uSize).2.filter Event.isSSL_write
        = [Event.SSL_write s.m_pSSL pData (toInt uSize)]
    ∧ ((Send env s pData uSize).1 = true ↔ 0 < env.SSL_write s.m_pSSL pData (toInt uSize))
    ∧ ((∃ m, logs (Send env s pData uSize).2 = [m]
            ∧ beginsWith m "[TCPSSLServer][Error] SSL_write failed")
        ↔ env.SSL_write s.m_pSSL pData (toInt uSize) ≤ 0)
    ∧ (logs (Send env s pData uSize).2 = []
        ↔ 0 < env.SSL_write s.m_pSSL pData (toInt uSize)) := by
  unfold Send
  by_cases h : env.SSL_write s.m_pSSL pData (toInt uSize) ≤ 0
  · have h2 : ¬ 0 < env.SSL_write s.m_pSSL pData (toInt uSize) := not_lt.mpr h
    simp only [h, if_true, StringFormat_write]
    refine ⟨by simp [List.filter, Event.isSSL_write], by simp [h2], ?_, by simp [logs, Event.logMsg, h2]⟩
    simp only [iff_true]
    exact ⟨_, rfl, beginsWith_errorMessage _ _ _⟩
  · have h2 : 0 < env.SSL_write s.m_pSSL pData (toInt uSize) := not_le.mp h
    simp [h, h2, List.filter, Event.isSSL_write, logs, Event.logMsg]

/-! ## Accept and handshake -/

theorem Listen_handshake_fst (env : Engine) (s : SSLSocket) (t : List Event) :
    (Listen_handshake env s t).1 = true ↔ 0 < env.SSL_accept (env.SSL_new s.m_pCTXSSL) := by
  unfold Listen_handshake
  by_cases h : env.SSL_accept (env.SSL_new s.m_pCTXSSL) ≤ 0
  · simp only [h, if_true]
    simp [not_lt.mpr h]
  · simp only [h, if_false]
    simp [not_le.mp h]

theorem Listen_key_fst (env : Engine) (cfg : Config) (s : SSLSocket) (t : List Event) :
    (Listen_key env cfg s t).1 = true ↔
      ((cfg.m_strSSLKeyFile ≠ "" →
          0 < env.SSL_CTX_use_PrivateKey_file s.m_pCTXSSL cfg.m_strSSLKeyFile)
        ∧ 0 < env.SSL_accept (env.SSL_new s.m_pCTXSSL)) := by
  unfold Listen_key
  by_cases hp : cfg.m_strSSLKeyFile ≠ ""
  · by_cases h : env.SSL_CTX_use_PrivateKey_file s.m_pCTXSSL cfg.m_strSSLKeyFile ≤ 0
    · rw [if_pos hp, if_pos h]
      simp [not_lt.mpr h, hp]
    · rw [if_pos hp, if_neg h, Listen_handshake_fst]
      simp [not_le.mp h]
  · rw [if_neg hp, Listen_handshake_fst]
    simp [hp]

theorem Listen_CA_fst (env : Engine) (cfg : Config) (s : SSLSocket) (t : List Event) :
    (Listen_CA env cfg s t).1 = true ↔
      ((cfg.m_strCAFile ≠ "" →
          env.SSL_CTX_load_verify_locations s.m_pCTXSSL cfg.m_strCAFile ≠ 0)
        ∧ (cfg.m_strSSLKeyFile ≠ "" →
          0 < env.SSL_CTX_use_PrivateKey_file s.m_pCTXSSL cfg.m_strSSLKeyFile)
        ∧ 0 < env.SSL_accept (env.SSL_new s.m_pCTXSSL)) := by
  unfold Listen_CA
  by_cases hp : cfg.m_strCAFile ≠ ""
  · by_cases h : env.SSL_CTX_load_verify_locations s.m_pCTXSSL cfg.m_strCAFile = 0
    · rw [if_pos hp, if_pos h]
      simp [hp, h]
    · rw [if_pos hp, if_neg h, Listen_key_fst]
      simp [h]
  · rw [if_neg hp, Listen_key_fst]
    simp [hp]

theorem Listen_cert_fst (env : Engine) (cfg : Config) (s : SSLSocket) (t : List Event) :
    (Listen_cert env cfg s t).1 = true ↔
      ((cfg.m_strSSLCertFile ≠ "" →
          0 < env.SSL_CTX_use_certificate_file s.m_pCTXSSL cfg.m_strSSLCertFile)
        ∧ (cfg.m_strCAFile ≠ "" →
          env.SSL_CTX_load_verify_locations s.m_pCTXSSL cfg.m_strCAFile ≠ 0)
        ∧ (cfg.m_strSSLKeyFile ≠ "" →
          0 < env.SSL_CTX_use_PrivateKey_file s.m_pCTXSSL cfg.m_strSSLKeyFile)
        ∧ 0 < env.SSL_accept (env.SSL_new s.m_pCTXSSL)) := by
  unfold Listen_cert
  by_cases hp : cfg.m_strSSLCertFile ≠ ""
  · by_cases h : env.SSL_CTX_use_certificate_file s.m_pCTXSSL cfg.m_strSSLCertFile ≤ 0
    · rw [if_pos hp, if_pos h]
      simp [not_lt.mpr h, hp]
    · rw [if_pos hp, if_neg h, Listen_CA_fst]
      simp [not_le.mp h]
  · rw [if_neg hp, Listen_CA_fst]
    simp [hp]

/-- C1: `Listen` returns true exactly when the TCP accept succeeds, the context
attached to the client is non-null, every file-loading step with a non-empty
path succeeds (certificate, CA, private key) and `SSL_accept` returns a strictly
positive value; in every other case it returns false. -/
theorem Listen_true_iff (env : Engine) (cfg : Config) (s : SSLSocket) :
    (Listen env cfg s).1 = true ↔
      ((env.TCPListen s.m_SockFd).1 = true
        ∧ attachedCtx env s ≠ nullptr
        ∧ (cfg.m_strSSLCertFile ≠ "" →
            0 < env.SSL_CTX_use_certificate_file (attachedCtx env s) cfg.m_strSSLCertFile)
        ∧ (cfg.m_strCAFile ≠ "" →
            env.SSL_CTX_load_verify_locations (attachedCtx env s) cfg.m_strCAFile ≠ 0)
        ∧ (cfg.m_strSSLKeyFile ≠ "" →
            0 < env.SSL_CTX_use_PrivateKey_file (attachedCtx env s) cfg.m_strSSLKeyFile)
        ∧ 0 < handshakeResult env s) := by
  unfold Listen handshakeResult attachedCtx ctxSocket acceptedSocket
  by_cases ha : (env.TCPListen s.m_SockFd).1 = true
  · by_cases hc : (env.SetUpCtxServer { s with m_SockFd := (env.TCPListen s.m_SockFd).2 }).m_pCTXSSL
        = nullptr
    · simp only [ha, hc, if_true]
      simp
    · simp only [ha, hc, if_true, if_false, Listen_cert_fst]
      simp [hc]
  · simp only [ha, if_false]
    simp [ha]

/-! ### The outcomes of `Listen`, one lemma per return statement -/

theorem Listen_of_accept_failed (env : Engine) (cfg : Config) (s : SSLSocket)
    (ha : (env.TCPListen s.m_SockFd).1 ≠ true) :
    Listen env cfg s = (false, acceptedSocket env s,
      [Event.TCPListen s.m_SockFd,
       Event.Log "[TCPSSLServer][Error] Unable to accept an incoming TCP connection with a client."]) := by
  unfold Listen acceptedSocket
  rw [if_neg ha]

theorem Listen_of_null_ctx (env : Engine) (cfg : Config) (s : SSLSocket)
    (ha : (env.TCPListen s.m_SockFd).1 = true) (hc : attachedCtx env s = nullptr) :
    Listen env cfg s = (false, ctxSocket env s,
      [Event.TCPListen s.m_SockFd, Event.SetUpCtxServer (acceptedSocket env s),
       Event.Log "[TCPSSLServer][Error] SSL CTX failed."]) := by
  unfold attachedCtx ctxSocket acceptedSocket at hc
  unfold Listen ctxSocket acceptedSocket
  rw [if_pos ha]
  simp only []
  rw [if_pos hc]

theorem Listen_of_ctx (env : Engine) (cfg : Config) (s : SSLSocket)
    (ha : (env.TCPListen s.m_SockFd).1 = true) (hc : attachedCtx env s ≠ nullptr) :
    Listen env cfg s = Listen_cert env cfg (ctxSocket env s) (setupCalls env s) := by
  unfold attachedCtx ctxSocket acceptedSocket at hc
  unfold Listen setupCalls attachedCtx ctxSocket acceptedSocket
  rw [if_pos ha]
  simp only []
  rw [if_neg hc]

theorem Listen_cert_of_fails (env : Engine) (cfg : Config) (s : SSLSocket) (t : List Event)
    (h : certFails env cfg s) :
    Listen_cert env cfg (ctxSocket env s) t = (false, ctxSocket env s,
      t ++ [Event.SSL_CTX_use_certificate_file (attachedCtx env s) cfg.m_strSSLCertFile,
            Event.Log "[TCPSSLServer][Error] Loading cert file failed."]) := by
  unfold certFails attachedCtx at h
  unfold Listen_cert attachedCtx
  rw [if_pos h.1, if_pos h.2]

theorem Listen_cert_of_passes (env : Engine) (cfg : Config) (s : SSLSocket) (t : List Event)
    (h : ¬ certFails env cfg s) :
    Listen_cert env cfg (ctxSocket env s) t
      = Listen_CA env cfg (ctxSocket env s) (t ++ certCalls env cfg s) := by
  unfold certFails attachedCtx at h
  unfold Listen_cert certCalls attachedCtx
  by_cases hp : cfg.m_strSSLCertFile ≠ ""
  · rw [if_pos hp, if_pos hp, if_neg (fun hr => h ⟨hp, hr⟩)]
  · rw [if_neg hp, if_neg hp, List.append_nil]

theorem Listen_CA_of_fails (env : Engine) (cfg : Config) (s : SSLSocket) (t : List Event)
    (h : caFails env cfg s) :
    Listen_CA env cfg (ctxSocket env s) t = (false, ctxSocket env s,
      t ++ [Event.SSL_CTX_load_verify_locations (attachedCtx env s) cfg.m_strCAFile,
            Event.Log "[TCPSSLServer][Error] Loading CA file failed."]) := by
  unfold caFails attachedCtx at h
  unfold Listen_CA attachedCtx
  rw [if_pos h.1, if_pos h.2]

theorem Listen_CA_of_passes (env : Engine) (cfg : Config) (s : SSLSocket) (t : List Event)
    (h : ¬ caFails env cfg s) :
    Listen_CA env cfg (ctxSocket env s) t
      = Listen_key env cfg (ctxSocket env s) (t ++ caCalls env cfg s) := by
  unfold caFails attachedCtx at h
  unfold Listen_CA caCalls attachedCtx
  by_cases hp : cfg.m_strCAFile ≠ ""
  · rw [if_pos hp, if_pos hp, if_neg (fun hr => h ⟨hp, hr⟩)]
  · rw [if_neg hp, if_neg hp, List.append_nil]

theorem Listen_key_of_fails (env : Engine) (cfg : Config) (s : SSLSocket) (t : List Event)
    (h : keyFails env cfg s) :
    Listen_key env cfg (ctxSocket env s) t = (false, ctxSocket env s,
      t ++ [Event.SSL_CTX_use_PrivateKey_file (attachedCtx env s) cfg.m_strSSLKeyFile,
            Event.Log "[TCPSSLServer][Error] Loading key file failed."]) := by
  unfold keyFails attachedCtx at h
  unfold Listen_key attachedCtx
  rw [if_pos h.1, if_pos h.2]

theorem Listen_key_of_passes (env : Engine) (cfg : Config) (s : SSLSocket) (t : List Event)
    (h : ¬ keyFails env cfg s) :
    Listen_key env cfg (ctxSocket env s) t
      = Listen_handshake env (ctxSocket env s) (t ++ keyCalls env cfg s) := by
  unfold keyFails attachedCtx at h
  unfold Listen_key keyCalls attachedCtx
  by_cases hp : cfg.m_strSSLKeyFile ≠ ""
  · rw [if_pos hp, if_pos hp, if_neg (fun hr => h ⟨hp, hr⟩)]
  · rw [if_neg hp, if_neg hp, List.append_nil]

theorem Listen_handshake_of_fails (env : Engine) (s : SSLSocket) (t : List Event)
    (h : handshakeResult env s ≤ 0) :
    Listen_handshake env (ctxSocket env s) t = (false, env.ShutdownSSL (sessionSocket env s),
      t ++ sessionCalls env s ++
        [Event.SSL_get_error (sessionSocket env s).m_pSSL (handshakeResult env s),
         Event.Log (acceptFailedMessage env s),
         Event.ERR_print_errors_fp,
         Event.ShutdownSSL (sessionSocket env s)]) := by
  unfold handshakeResult attachedCtx at h
  unfold Listen_handshake sessionCalls acceptFailedMessage sessionSocket handshakeResult attachedCtx
  simp only []
  rw [if_pos h, StringFormat_accept]

theorem Listen_handshake_of_succeeds (env : Engine) (s : SSLSocket) (t : List Event)
    (h : 0 < handshakeResult env s) :
    Listen_handshake env (ctxSocket env s) t
      = (true, sessionSocket env s, t ++ sessionCalls env s) := by
  unfold handshakeResult attachedCtx at h
  unfold Listen_handshake sessionCalls sessionSocket attachedCtx
  simp only []
  rw [if_neg (not_le.mpr h)]

theorem Listen_of_reached (env : Engine) (cfg : Config) (s : SSLSocket)
    (h : handshakeReached env cfg s) :
    Listen env cfg s = Listen_handshake env (ctxSocket env s)
      (setupCalls env s ++ certCalls env cfg s ++ caCalls env cfg s ++ keyCalls env cfg s) := by
  obtain ⟨ha, hc, h1, h2, h3⟩ := h
  rw [Listen_of_ctx env cfg s ha hc, Listen_cert_of_passes env cfg s _ h1,
    Listen_CA_of_passes env cfg s _ h2, Listen_key_of_passes env cfg s _ h3]

/-! ### Observations of the call groups -/

theorem obs_setupCalls (env : Engine) (s : SSLSocket) :
    logs (setupCalls env s) = [] ∧ (setupCalls env s).filter Event.isLoader = []
    ∧ (setupCalls env s).filter Event.isSession = []
    ∧ (setupCalls env s).filter Event.isShutdownSSL = []
    ∧ (setupCalls env s).filter Event.isSSL_accept = []
    ∧ (setupCalls env s).filter Event.isSetVerifyDepth = []
    ∧ (setupCalls env s).filter Event.isLogOrShutdown = []
    ∧ (setupCalls env s).filter Event.isLoaderOrSession = [] := by
  simp [setupCalls, logs, Event.logMsg, List.filter, Event.isLoader, Event.isSession,
    Event.isShutdownSSL, Event.isSSL_accept, Event.isSetVerifyDepth, Event.isLogOrShutdown,
    Event.isLoaderOrSession]

theorem obs_certCalls (env : Engine) (cfg : Config) (s : SSLSocket) :
    logs (certCalls env cfg s) = [] ∧ (certCalls env cfg s).filter Event.isLoader = certCalls env cfg s
    ∧ (certCalls env cfg s).filter Event.isSession = []
    ∧ (certCalls env cfg s).filter Event.isShutdownSSL = []
    ∧ (certCalls env cfg s).filter Event.isSSL_accept = []
    ∧ (certCalls env cfg s).filter Event.isSetVerifyDepth = []
    ∧ (certCalls env cfg s).filter Event.isLogOrShutdown = []
    ∧ (certCalls env cfg s).filter Event.isLoaderOrSession = certCalls env cfg s := by
  unfold certCalls
  split_ifs <;>
  simp [logs, Event.logMsg, List.filter, Event.isLoader, Event.isSession,
    Event.isShutdownSSL, Event.isSSL_accept, Event.isSetVerifyDepth, Event.isLogOrShutdown,
    Event.isLoaderOrSession]

theorem obs_caCalls (env : Engine) (cfg : Config) (s : SSLSocket) :
    logs (caCalls env cfg s) = []
    ∧ (caCalls env cfg s).filter Event.isLoader
        = (if cfg.m_strCAFile ≠ "" then
            [Event.SSL_CTX_load_verify_locations (attachedCtx env s) cfg.m_strCAFile] else [])
    ∧ (caCalls env cfg s).filter Event.isSession = []
    ∧ (caCalls env cfg s).filter Event.isShutdownSSL = []
    ∧ (caCalls env cfg s).filter Event.isSSL_accept = []
    ∧ (caCalls env cfg s).filter Event.isSetVerifyDepth
        = (if cfg.m_strCAFile ≠ "" then
            [Event.SSL_CTX_set_verify_depth (attachedCtx env s) 1] else [])
    ∧ (caCalls env cfg s).filter Event.isLogOrShutdown = []
    ∧ (caCalls env cfg s).filter Event.isLoaderOrSession
        = (if cfg.m_strCAFile ≠ "" then
            [Event.SSL_CTX_load_verify_locations (attachedCtx env s) cfg.m_strCAFile] else []) := by
  unfold caCalls
  split_ifs <;>
  simp [logs, Event.logMsg, List.filter, Event.isLoader, Event.isSession,
    Event.isShutdownSSL, Event.isSSL_accept, Event.isSetVerifyDepth, Event.isLogOrShutdown,
    Event.isLoaderOrSession]

theorem obs_keyCalls (env : Engine) (cfg : Config) (s : SSLSocket) :
    logs (keyCalls env cfg s) = [] ∧ (keyCalls env cfg s).filter Event.isLoader = keyCalls env cfg s
    ∧ (keyCalls env cfg s).filter Event.isSession = []
    ∧ (keyCalls env cfg s).filter Event.isShutdownSSL = []
    ∧ (keyCalls env cfg s).filter Event.isSSL_accept = []
    ∧ (keyCalls env cfg s).filter Event.isSetVerifyDepth = []
    ∧ (keyCalls env cfg s).filter Event.isLogOrShutdown = []
    ∧ (keyCalls env cfg s).filter Event.isLoaderOrSession = keyCalls env cfg s := by
  unfold keyCalls
  split_ifs <;>
  simp [logs, Event.logMsg, List.filter, Event.isLoader, Event.isSession,
    Event.isShutdownSSL, Event.isSSL_accept, Event.isSetVerifyDepth, Event.isLogOrShutdown,
    Event.isLoaderOrSession]

theorem obs_sessionCalls (env : Engine) (s : SSLSocket) :
    logs (sessionCalls env s) = [] ∧ (sessionCalls env s).filter Event.isLoader = []
    ∧ (sessionCalls env s).filter Event.isSession = sessionCalls env s
    ∧ (sessionCalls env s).filter Event.isShutdownSSL = []
    ∧ (sessionCalls env s).filter Event.isSSL_accept
        = [Event.SSL_accept (sessionSocket env s).m_pSSL]
    ∧ (sessionCalls env s).filter Event.isSetVerifyDepth = []
    ∧ (sessionCalls env s).filter Event.isLogOrShutdown = []
    ∧ (sessionCalls env s).filter Event.isLoaderOrSession = sessionCalls env s := by
  simp [sessionCalls, logs, Event.logMsg, List.filter, Event.isLoader, Event.isSession,
    Event.isShutdownSSL, Event.isSSL_accept, Event.isSetVerifyDepth, Event.isLogOrShutdown,
    Event.isLoaderOrSession]

theorem logs_append (t u : List Event) : logs (t ++ u) = logs t ++ logs u := by
  simp [logs, List.filterMap_append]

theorem logs_nil : logs [] = [] := rfl

theorem logs_cons (e : Event) (t : List Event) : logs (e :: t) = e.logMsg.toList ++ logs t := by
  cases e <;> simp [logs, Event.logMsg, List.filterMap_cons]

theorem errorMessage_ne (head lit : String) (code : Int) (reason : String)
    (h : ¬ beginsWith lit head) : errorMessage head code reason ≠ lit :=
  fun e => h (e ▸ beginsWith_errorMessage head code reason)

/-- Every `Listen` call takes exactly one of its seven return statements. -/
theorem Listen_eq (env : Engine) (cfg : Config) (s : SSLSocket) :
    Listen env cfg s =
      if (env.TCPListen s.m_SockFd).1 ≠ true then
        (false, acceptedSocket env s,
          [Event.TCPListen s.m_SockFd,
           Event.Log "[TCPSSLServer][Error] Unable to accept an incoming TCP connection with a client."])
      else if attachedCtx env s = nullptr then
        (false, ctxSocket env s,
          [Event.TCPListen s.m_SockFd, Event.SetUpCtxServer (acceptedSocket env s),
           Event.Log "[TCPSSLServer][Error] SSL CTX failed."])
      else if certFails env cfg s then
        (false, ctxSocket env s,
          setupCalls env s ++
            [Event.SSL_CTX_use_certificate_file (attachedCtx env s) cfg.m_strSSLCertFile,
             Event.Log "[TCPSSLServer][Error] Loading cert file failed."])
      else if caFails env cfg s then
        (false, ctxSocket env s,
          setupCalls env s ++ certCalls env cfg s ++
            [Event.SSL_CTX_load_verify_locations (attachedCtx env s) cfg.m_strCAFile,
             Event.Log "[TCPSSLServer][Error] Loading CA file failed."])
      else if keyFails env cfg s then
        (false, ctxSocket env s,
          setupCalls env s ++ certCalls env cfg s ++ caCalls env cfg s ++
            [Event.SSL_CTX_use_PrivateKey_file (attachedCtx env s) cfg.m_strSSLKeyFile,
             Event.Log "[TCPSSLServer][Error] Loading key file failed."])
      else if handshakeResult env s ≤ 0 then
        (false, env.ShutdownSSL (sessionSocket env s),
          setupCalls env s ++ certCalls env cfg s ++ caCalls env cfg s ++ keyCalls env cfg s
            ++ sessionCalls env s ++
            [Event.SSL_get_error (sessionSocket env s).m_pSSL (handshakeResult env s),
             Event.Log (acceptFailedMessage env s),
             Event.ERR_print_errors_fp,
             Event.ShutdownSSL (sessionSocket env s)])
      else
        (true, sessionSocket env s,
          setupCalls env s ++ certCalls env cfg s ++ caCalls env cfg s ++ keyCalls env cfg s
            ++ sessionCalls env s) := by
  by_cases ha : (env.TCPListen s.m_SockFd).1 = true
  · rw [if_neg (not_not.mpr ha)]
    by_cases hc : attachedCtx env s = nullptr
    · rw [if_pos hc, Listen_of_null_ctx env cfg s ha hc]
    · rw [if_neg hc, Listen_of_ctx env cfg s ha hc]
      by_cases h1 : certFails env cfg s
      · rw [if_pos h1, Listen_cert_of_fails env cfg s _ h1]
      · rw [if_neg h1, Listen_cert_of_passes env cfg s _ h1]
        by_cases h2 : caFails env cfg s
        · rw [if_pos h2, Listen_CA_of_fails env cfg s _ h2]
        · rw [if_neg h2, Listen_CA_of_passes env cfg s _ h2]
          by_cases h3 : keyFails env cfg s
          · rw [if_pos h3, Listen_key_of_fails env cfg s _ h3]
          · rw [if_neg h3, Listen_key_of_passes env cfg s _ h3]
            by_cases h4 : handshakeResult env s ≤ 0
            · rw [if_pos h4, Listen_handshake_of_fails env s _ h4]
            · rw [if_neg h4, Listen_handshake_of_succeeds env s _ (not_le.mp h4)]
  · rw [if_pos ha, Listen_of_accept_failed env cfg s ha]

/-- C9: during `Listen` the verification depth of the context is set, once and
to the value 1, exactly when the accept succeeds, the context is non-null, the
certificate step does not fail, the CA path is non-empty and the CA load
succeeds; with an empty CA path the setter is never called, and a `Listen` that
returns true with a non-empty CA path has set a positive depth. -/
theorem Listen_verify_depth (env : Engine) (cfg : Config) (s : SSLSocket) :
    (Listen env cfg s).2.2.filter Event.isSetVerifyDepth
        = (if (env.TCPListen s.m_SockFd).1 = true ∧ attachedCtx env s ≠ nullptr
              ∧ ¬ certFails env cfg s ∧ cfg.m_strCAFile ≠ ""
              ∧ env.SSL_CTX_load_verify_locations (attachedCtx env s) cfg.m_strCAFile ≠ 0
            then [Event.SSL_CTX_set_verify_depth (attachedCtx env s) 1] else [])
    ∧ (cfg.m_strCAFile = "" →
        (Listen env cfg s).2.2.filter Event.isSetVerifyDepth = [])
    ∧ ((Listen env cfg s).1 = true → cfg.m_strCAFile ≠ "" →
        ∃ d : Int, 0 < d ∧ (Listen env cfg s).2.2.filter Event.isSetVerifyDepth
          = [Event.SSL_CTX_set_verify_depth (attachedCtx env s) d]) := by
  have key : (Listen env cfg s).2.2.filter Event.isSetVerifyDepth
        = (if (env.TCPListen s.m_SockFd).1 = true ∧ attachedCtx env s ≠ nullptr
              ∧ ¬ certFails env cfg s ∧ cfg.m_strCAFile ≠ ""
              ∧ env.SSL_CTX_load_verify_locations (attachedCtx env s) cfg.m_strCAFile ≠ 0
            then [Event.SSL_CTX_set_verify_depth (attachedCtx env s) 1] else []) := by
    rw [Listen_eq]
    unfold caFails
    split_ifs <;>
      simp_all [List.filter_append, obs_setupCalls, obs_certCalls, obs_caCalls, obs_keyCalls,
        obs_sessionCalls, Event.isSetVerifyDepth, List.filter]
  refine ⟨key, ?_, ?_⟩
  · intro h
    rw [key, if_neg]
    simp [h]
  · intro ht hca
    refine ⟨1, by decide, ?_⟩
    rw [key, if_pos]
    rw [Listen_eq] at ht
    split_ifs at ht with a1 a2 a3 a4 a5 a6
    exact ⟨not_not.mp a1, a2, a3, hca, fun h0 => a4 ⟨hca, h0⟩⟩

/-- C9, concrete run: with `demoEngine` and a CA file, `Listen` returns true
and has set a positive verification depth. -/
theorem Listen_verify_depth_witness :
    (Listen demoEngine fullConfig freshSocket).1 = true
    ∧ fullConfig.m_strCAFile ≠ ""
    ∧ ∃ d : Int, 0 < d ∧
        (Listen demoEngine fullConfig freshSocket).2.2.filter Event.isSetVerifyDepth
          = [Event.SSL_CTX_set_verify_depth (attachedCtx demoEngine freshSocket) d] :=
  ⟨by decide, by decide,
    (Listen_verify_depth demoEngine fullConfig freshSocket).2.2 (by decide) (by decide)⟩

theorem Listen_file_loading_core (env : Engine) (cfg : Config) (s : SSLSocket)
    (ha : (env.TCPListen s.m_SockFd).1 = true) (hc : attachedCtx env s ≠ nullptr) :
    ((Listen env cfg s).2.2.filter Event.isLoader <+: loaderPlan env cfg s)
    ∧ ("[TCPSSLServer][Error] Loading cert file failed." ∈ logs (Listen env cfg s).2.2
        ↔ certFails env cfg s)
    ∧ ("[TCPSSLServer][Error] Loading CA file failed." ∈ logs (Listen env cfg s).2.2
        ↔ ¬ certFails env cfg s ∧ caFails env cfg s)
    ∧ ("[TCPSSLServer][Error] Loading key file failed." ∈ logs (Listen env cfg s).2.2
        ↔ ¬ certFails env cfg s ∧ ¬ caFails env cfg s ∧ keyFails env cfg s)
    ∧ (certFails env cfg s →
        (Listen env cfg s).1 = false
        ∧ logs (Listen env cfg s).2.2 = ["[TCPSSLServer][Error] Loading cert file failed."]
        ∧ (Listen env cfg s).2.2.filter Event.isLoader
            = [Event.SSL_CTX_use_certificate_file (attachedCtx env s) cfg.m_strSSLCertFile]
        ∧ (Listen env cfg s).2.2.filter Event.isSession = [])
    ∧ (¬ certFails env cfg s → caFails env cfg s →
        (Listen env cfg s).1 = false
        ∧ logs (Listen env cfg s).2.2 = ["[TCPSSLServer][Error] Loading CA file failed."]
        ∧ (Listen env cfg s).2.2.filter Event.isLoader
            = certCalls env cfg s
              ++ [Event.SSL_CTX_load_verify_locations (attachedCtx env s) cfg.m_strCAFile]
        ∧ (Listen env cfg s).2.2.filter Event.isSession = [])
    ∧ (¬ certFails env cfg s → ¬ caFails env cfg s → keyFails env cfg s →
        (Listen env cfg s).1 = false
        ∧ logs (Listen env cfg s).2.2 = ["[TCPSSLServer][Error] Loading key file failed."]
        ∧ (Listen env cfg s).2.2.filter Event.isLoader
            = certCalls env cfg s ++ (caCalls env cfg s).filter Event.isLoader
              ++ [Event.SSL_CTX_use_PrivateKey_file (attachedCtx env s) cfg.m_strSSLKeyFile]
        ∧ (Listen env cfg s).2.2.filter Event.isSession = []) := by
  have n1 := errorMessage_ne "[TCPSSLServer][Error] accept failed."
    "[TCPSSLServer][Error] Loading cert file failed." (handshakeResult env s)
    (env.GetSSLErrorString (env.SSL_get_error (sessionSocket env s).m_pSSL (handshakeResult env s)))
    (by decide)
  have n2 := errorMessage_ne "[TCPSSLServer][Error] accept failed."
    "[TCPSSLServer][Error] Loading CA file failed." (handshakeResult env s)
    (env.GetSSLErrorString (env.SSL_get_error (sessionSocket env s).m_pSSL (handshakeResult env s)))
    (by decide)
  have n3 := errorMessage_ne "[TCPSSLServer][Error] accept failed."
    "[TCPSSLServer][Error] Loading key file failed." (handshakeResult env s)
    (env.GetSSLErrorString (env.SSL_get_error (sessionSocket env s).m_pSSL (handshakeResult env s)))
    (by decide)
  rw [Listen_eq, if_neg (not_not.mpr ha), if_neg hc]
  by_cases h1 : certFails env cfg s
  · rw [if_pos h1]
    have hp := h1.1
    simp [h1, hp, loaderPlan, logs_append, List.filter_append, obs_setupCalls, logs_cons, logs_nil,
      Event.logMsg, Event.isLoader, Event.isSession, List.filter]
  · rw [if_neg h1]
    by_cases h2 : caFails env cfg s
    · rw [if_pos h2]
      have hp := h2.1
      simp only [loaderPlan, certCalls]
      split_ifs <;>
      simp [h1, h2, logs_append, List.filter_append, obs_setupCalls, logs_cons, logs_nil,
        Event.logMsg, Event.isLoader, Event.isSession, List.filter]
    · rw [if_neg h2]
      by_cases h3 : keyFails env cfg s
      · rw [if_pos h3]
        have hp := h3.1
        simp only [loaderPlan, certCalls, caCalls]
        split_ifs <;>
        simp [h1, h2, h3, logs_append, List.filter_append, obs_setupCalls, logs_cons, logs_nil,
          Event.logMsg, Event.isLoader, Event.isSession, List.filter]
      · rw [if_neg h3]
        simp only [loaderPlan, certCalls, caCalls, keyCalls, acceptFailedMessage]
        split_ifs <;>
        simp [h1, h2, h3, n1.symm, n2.symm, n3.symm, logs_append, List.filter_append, obs_setupCalls,
          obs_sessionCalls, obs_certCalls, obs_caCalls, obs_keyCalls, logs_cons, logs_nil, Event.logMsg, Event.isLoader, Event.isSession, List.filter]

theorem loaderPlan_eq (env : Engine) (cfg : Config) (s : SSLSocket) :
    loaderPlan env cfg s
      = certCalls env cfg s
        ++ (if cfg.m_strCAFile ≠ "" then
            [Event.SSL_CTX_load_verify_locations (attachedCtx env s) cfg.m_strCAFile] else [])
        ++ keyCalls env cfg s := rfl

theorem Listen_loaders_of_no_failure (env : Engine) (cfg : Config) (s : SSLSocket)
    (ha : (env.TCPListen s.m_SockFd).1 = true) (hc : attachedCtx env s ≠ nullptr)
    (h1 : ¬ certFails env cfg s) (h2 : ¬ caFails env cfg s) (h3 : ¬ keyFails env cfg s) :
    (Listen env cfg s).2.2.filter Event.isLoader = loaderPlan env cfg s
    ∧ (Listen env cfg s).2.2.filter Event.isLoaderOrSession
        = loaderPlan env cfg s ++ sessionCalls env s
    ∧ (Listen env cfg s).2.2.filter Event.isSession = sessionCalls env s := by
  rw [Listen_eq, if_neg (not_not.mpr ha), if_neg hc, if_neg h1, if_neg h2, if_neg h3,
    loaderPlan_eq]
  by_cases h4 : handshakeResult env s ≤ 0
  · rw [if_pos h4]
    simp [List.filter_append, obs_setupCalls, obs_certCalls, obs_caCalls, obs_keyCalls,
      obs_sessionCalls, Event.isLoader, Event.isSession, Event.isLoaderOrSession, List.filter]
    rfl
  · rw [if_neg h4]
    simp [List.filter_append, obs_setupCalls, obs_certCalls, obs_caCalls, obs_keyCalls,
      obs_sessionCalls]

theorem Listen_loader_mem_plan (env : Engine) (cfg : Config) (s : SSLSocket)
    (ha : (env.TCPListen s.m_SockFd).1 = true) (hc : attachedCtx env s ≠ nullptr)
    (e : Event) (hm : e ∈ (Listen env cfg s).2.2) (hl : e.isLoader = true) :
    e ∈ loaderPlan env cfg s :=
  (Listen_file_loading_core env cfg s ha hc).1.subset (List.mem_filter.mpr ⟨hm, hl⟩)

/-- C6: on an accepted connection with a non-null context the three
file-loading steps run in the order certificate, CA, private key: when no step
fails, the loader calls of `Listen` are exactly the loaders of the non-empty
paths in that order, followed by `SSL_new`, `SSL_set_fd`, `SSL_accept`; a step
with an empty path never calls its loader and never logs its failure message;
a step's failure message is logged exactly when that step is reached with a
non-empty path and its loader fails; and at a failing step `Listen` has called
the loaders of the earlier non-empty paths and the failing one, logs that
step's message only, returns false, and calls no later loader nor `SSL_new`,
`SSL_set_fd` or `SSL_accept`. -/
theorem Listen_file_loading (env : Engine) (cfg : Config) (s : SSLSocket)
    (ha : (env.TCPListen s.m_SockFd).1 = true) (hc : attachedCtx env s ≠ nullptr) :
    ((Listen env cfg s).2.2.filter Event.isLoader <+: loaderPlan env cfg s)
    ∧ ("[TCPSSLServer][Error] Loading cert file failed." ∈ logs (Listen env cfg s).2.2
        ↔ certFails env cfg s)
    ∧ ("[TCPSSLServer][Error] Loading CA file failed." ∈ logs (Listen env cfg s).2.2
        ↔ ¬ certFails env cfg s ∧ caFails env cfg s)
    ∧ ("[TCPSSLServer][Error] Loading key file failed." ∈ logs (Listen env cfg s).2.2
        ↔ ¬ certFails env cfg s ∧ ¬ caFails env cfg s ∧ keyFails env cfg s)
    ∧ (certFails env cfg s →
        (Listen env cfg s).1 = false
        ∧ logs (Listen env cfg s).2.2 = ["[TCPSSLServer][Error] Loading cert file failed."]
        ∧ (Listen env cfg s).2.2.filter Event.isLoader
            = [Event.SSL_CTX_use_certificate_file (attachedCtx env s) cfg.m_strSSLCertFile]
        ∧ (Listen env cfg s).2.2.filter Event.isSession = [])
    ∧ (¬ certFails env cfg s → caFails env cfg s →
        (Listen env cfg s).1 = false
        ∧ logs (Listen env cfg s).2.2 = ["[TCPSSLServer][Error] Loading CA file failed."]
        ∧ (Listen env cfg s).2.2.filter Event.isLoader
            = (if cfg.m_strSSLCertFile ≠ "" then
                [Event.SSL_CTX_use_certificate_file (attachedCtx env s) cfg.m_strSSLCertFile]
               else [])
              ++ [Event.SSL_CTX_load_verify_locations (attachedCtx env s) cfg.m_strCAFile]
        ∧ (Listen env cfg s).2.2.filter Event.isSession = [])
    ∧ (¬ certFails env cfg s → ¬ caFails env cfg s → keyFails env cfg s →
        (Listen env cfg s).1 = false
        ∧ logs (Listen env cfg s).2.2 = ["[TCPSSLServer][Error] Loading key file failed."]
        ∧ (Listen env cfg s).2.2.filter Event.isLoader
            = (if cfg.m_strSSLCertFile ≠ "" then
                [Event.SSL_CTX_use_certificate_file (attachedCtx env s) cfg.m_strSSLCertFile]
               else [])
              ++ (if cfg.m_strCAFile ≠ "" then
                [Event.SSL_CTX_load_verify_locations (attachedCtx env s) cfg.m_strCAFile]
               else [])
              ++ [Event.SSL_CTX_use_PrivateKey_file (attachedCtx env s) cfg.m_strSSLKeyFile]
        ∧ (Listen env cfg s).2.2.filter Event.isSession = [])
    ∧ (¬ certFails env cfg s → ¬ caFails env cfg s → ¬ keyFails env cfg s →
        (Listen env cfg s).2.2.filter Event.isLoader = loaderPlan env cfg s
        ∧ (Listen env cfg s).2.2.filter Event.isLoaderOrSession
            = loaderPlan env cfg s ++ sessionCalls env s
        ∧ (Listen env cfg s).2.2.filter Event.isSession = sessionCalls env s)
    ∧ (cfg.m_strSSLCertFile = "" → ∀ c f,
        Event.SSL_CTX_use_certificate_file c f ∉ (Listen env cfg s).2.2)
    ∧ (cfg.m_strCAFile = "" → ∀ c f,
        Event.SSL_CTX_load_verify_locations c f ∉ (Listen env cfg s).2.2)
    ∧ (cfg.m_strSSLKeyFile = "" → ∀ c f,
        Event.SSL_CTX_use_PrivateKey_file c f ∉ (Listen env cfg s).2.2) := by
  obtain ⟨p1, p2, p3, p4, p5, p6, p7⟩ := Listen_file_loading_core env cfg s ha hc
  refine ⟨p1, p2, p3, p4, p5, ?_, ?_, Listen_loaders_of_no_failure env cfg s ha hc,
    ?_, ?_, ?_⟩
  · intro h1 h2
    have h := p6 h1 h2
    unfold certCalls at h
    exact h
  · intro h1 h2 h3
    have h := p7 h1 h2 h3
    rw [(obs_caCalls env cfg s).2.1] at h
    unfold certCalls at h
    exact h
  · intro he c f hm
    have h := Listen_loader_mem_plan env cfg s ha hc _ hm rfl
    unfold loaderPlan at h
    rw [if_neg (not_not.mpr he)] at h
    split_ifs at h <;> simp at h
  · intro he c f hm
    have h := Listen_loader_mem_plan env cfg s ha hc _ hm rfl
    unfold loaderPlan at h
    rw [if_neg (not_not.mpr he)] at h
    split_ifs at h <;> simp at h
  · intro he c f hm
    have h := Listen_loader_mem_plan env cfg s ha hc _ hm rfl
    unfold loaderPlan at h
    rw [if_neg (not_not.mpr he)] at h
    split_ifs at h <;> simp at h

/-- C6, concrete runs with `demoEngine`, all three paths non-empty.  When every
file loads, the loader calls are certificate, CA, key, followed by the session
calls.  When the CA file does not load, `Listen` returns false after logging
the CA message, having called the certificate and CA loaders but neither the
key loader nor any session call.  When the key file does not load, all three
loaders were called, in order, and no session call. -/
theorem Listen_file_loading_witness :
    (demoEngine.TCPListen freshSocket.m_SockFd).1 = true
    ∧ attachedCtx demoEngine freshSocket ≠ nullptr
    ∧ (¬ certFails demoEngine fullConfig freshSocket ∧ ¬ caFails demoEngine fullConfig freshSocket
        ∧ ¬ keyFails demoEngine fullConfig freshSocket)
    ∧ (Listen demoEngine fullConfig freshSocket).2.2.filter Event.isLoaderOrSession
        = [Event.SSL_CTX_use_certificate_file 100 "cert.pem",
           Event.SSL_CTX_load_verify_locations 100 "ca.pem",
           Event.SSL_CTX_use_PrivateKey_file 100 "key.pem",
           Event.SSL_new 100, Event.SSL_set_fd 200 7, Event.SSL_accept 200]
    ∧ (¬ certFails demoEngine badCAConfig freshSocket ∧ caFails demoEngine badCAConfig freshSocket)
    ∧ ((Listen demoEngine badCAConfig freshSocket).1 = false
        ∧ logs (Listen demoEngine badCAConfig freshSocket).2.2
            = ["[TCPSSLServer][Error] Loading CA file failed."]
        ∧ (Listen demoEngine badCAConfig freshSocket).2.2.filter Event.isLoader
            = [Event.SSL_CTX_use_certificate_file 100 "cert.pem",
               Event.SSL_CTX_load_verify_locations 100 "bad.pem"]
        ∧ (Listen demoEngine badCAConfig freshSocket).2.2.filter Event.isSession = [])
    ∧ (¬ certFails demoEngine badKeyConfig freshSocket
        ∧ ¬ caFails demoEngine badKeyConfig freshSocket
        ∧ keyFails demoEngine badKeyConfig freshSocket)
    ∧ ((Listen demoEngine badKeyConfig freshSocket).1 = false
        ∧ logs (Listen demoEngine badKeyConfig freshSocket).2.2
            = ["[TCPSSLServer][Error] Loading key file failed."]
        ∧ (Listen demoEngine badKeyConfig freshSocket).2.2.filter Event.isLoader
            = [Event.SSL_CTX_use_certificate_file 100 "cert.pem",
               Event.SSL_CTX_load_verify_locations 100 "ca.pem",
               Event.SSL_CTX_use_PrivateKey_file 100 "bad.pem"]
        ∧ (Listen demoEngine badKeyConfig freshSocket).2.2.filter Event.isSession = []) :=
  ⟨by decide, by decide, by decide,
    ((Listen_file_loading demoEngine fullConfig freshSocket (by decide) (by decide)).2.2.2.2.2.2.2.1
      (by decide) (by decide) (by decide)).2.1,
    by decide,
    (Listen_file_loading demoEngine badCAConfig freshSocket (by decide) (by decide)).2.2.2.2.2.1
      (by decide) (by decide),
    by decide,
    (Listen_file_loading demoEngine badKeyConfig freshSocket (by decide) (by decide)).2.2.2.2.2.2.1
      (by decide) (by decide) (by decide)⟩

/-- C7: at a certificate load failure `Listen` returns false while the client
socket still holds the context attached by `SetUpCtxServer`, and no
`ShutdownSSL` was called, whereas the failing handshake of the same function
does call `ShutdownSSL` on the socket. -/
theorem Listen_cert_failure_keeps_ctx :
    (Listen demoEngine badCertConfig freshSocket).1 = false
    ∧ (Listen demoEngine badCertConfig freshSocket).2.1
        = { m_SockFd := 7, m_pSSL := nullptr, m_pCTXSSL := 100 }
    ∧ (Listen demoEngine badCertConfig freshSocket).2.1.m_pCTXSSL ≠ nullptr
    ∧ (Listen demoEngine badCertConfig freshSocket).2.2.filter Event.isShutdownSSL = []
    ∧ (Listen refusingEngine fullConfig freshSocket).2.2.filter Event.isShutdownSSL
        = [Event.ShutdownSSL { m_SockFd := 7, m_pSSL := 200, m_pCTXSSL := 100 }] := by
  decide

/-! ## Encrypted I/O, continued -/

/-- C2 (as stated, refuted): with `uSize = 0` the primitive `Send` is not
rejected before the engine: `SSL_write` is called. -/
theorem Send_zero_reaches_engine :
    ¬ ((Send demoEngine freshSocket [] 0).1 = false
        ∧ (Send demoEngine freshSocket [] 0).2.filter Event.isSSL_write = []) := by
  decide

/-- C2 (amended): the primitive `Send` has no zero-length guard; with
`uSize = 0` it calls `SSL_write` exactly once, with `num = 0`, and returns true
exactly when the engine result is strictly positive, false otherwise. -/
theorem Send_zero_forwarded (env : Engine) (s : SSLSocket) (pData : List Char) :
    (Send env s pData 0).2.filter Event.isSSL_write = [Event.SSL_write s.m_pSSL pData 0]
    ∧ ((Send env s pData 0).1 = true ↔ 0 < env.SSL_write s.m_pSSL pData 0)
    ∧ ((Send env s pData 0).1 = false ↔ env.SSL_write s.m_pSSL pData 0 ≤ 0) := by
  have h0 : toInt 0 = 0 := by decide
  unfold Send
  rw [h0]
  by_cases h : env.SSL_write s.m_pSSL pData 0 ≤ 0
  · simp [h, not_lt.mpr h, List.filter, Event.isSSL_write]
  · simp [h, not_le.mp h, List.filter, Event.isSSL_write]

/-- C4: the string and vector overloads of `Send` perform exactly the calls of
the primitive `Send` on the container's data and length, hence one `SSL_write`,
and return true for every input and every engine result, also when the
primitive call returns false. -/
theorem Send_overloads_always_true (env : Engine) (s : SSLSocket) (data : List Char) :
    (Send_string env s data).1 = true
    ∧ (Send_string env s data).2 = (Send env s data data.length).2
    ∧ (Send_string env s data).2.filter Event.isSSL_write
        = [Event.SSL_write s.m_pSSL data (toInt data.length)]
    ∧ (Send_vector env s data).1 = true
    ∧ (Send_vector env s data).2 = (Send env s data data.length).2
    ∧ (Send_vector env s data).2.filter Event.isSSL_write
        = [Event.SSL_write s.m_pSSL data (toInt data.length)]
    ∧ (env.SSL_write s.m_pSSL data (toInt data.length) ≤ 0 →
        (Send env s data data.length).1 = false
        ∧ (Send_string env s data).1 = true ∧ (Send_vector env s data).1 = true) := by
  have hw : (Send env s data data.length).2.filter Event.isSSL_write
      = [Event.SSL_write s.m_pSSL data (toInt data.length)] := by
    unfold Send
    by_cases h : env.SSL_write s.m_pSSL data (toInt data.length) ≤ 0
    · simp [h, List.filter, Event.isSSL_write]
    · simp [h, List.filter, Event.isSSL_write]
  refine ⟨rfl, rfl, hw, rfl, rfl, hw, ?_⟩
  intro h
  refine ⟨?_, rfl, rfl⟩
  unfold Send
  simp [h]

/-- C4, concrete run: with `demoEngine` an empty payload makes the primitive
`Send` return false while both overloads return true. -/
theorem Send_overloads_always_true_witness :
    demoEngine.SSL_write freshSocket.m_pSSL [] (toInt ([] : List Char).length) ≤ 0
    ∧ ((Send demoEngine freshSocket [] ([] : List Char).length).1 = false
        ∧ (Send_string demoEngine freshSocket []).1 = true
        ∧ (Send_vector demoEngine freshSocket []).1 = true) :=
  ⟨by decide, (Send_overloads_always_true demoEngine freshSocket []).2.2.2.2.2.2 (by decide)⟩

/-- C5: `Receive` returns the value of `SSL_read` unchanged, whatever its sign,
calls `SSL_read` once, and logs one message starting with
"[TCPSSLServer][Error] SSL_read failed" and carrying the error code exactly
when that value is strictly negative; a result of 0 is returned without log. -/
theorem Receive_result_and_log (env : Engine) (s : SSLSocket) (uSize : Nat) :
    (Receive env s uSize).1 = (env.SSL_read s.m_pSSL (toInt uSize)).1
    ∧ (Receive env s uSize).2.2.filter Event.isSSL_read
        = [Event.SSL_read s.m_pSSL (toInt uSize)]
    ∧ ((∃ m, logs (Receive env s uSize).2.2 = [m]
            ∧ beginsWith m "[TCPSSLServer][Error] SSL_read failed"
            ∧ m = "[TCPSSLServer][Error] SSL_read failed" ++ " (Error="
                ++ toString (env.SSL_read s.m_pSSL (toInt uSize)).1 ++ " | "
                ++ env.GetSSLErrorString
                    (env.SSL_get_error s.m_pSSL (env.SSL_read s.m_pSSL (toInt uSize)).1)
                ++ ")")
        ↔ (env.SSL_read s.m_pSSL (toInt uSize)).1 < 0)
    ∧ (logs (Receive env s uSize).2.2 = [] ↔ 0 ≤ (env.SSL_read s.m_pSSL (toInt uSize)).1)
    ∧ ((env.SSL_read s.m_pSSL (toInt uSize)).1 = 0 →
        (Receive env s uSize).1 = 0 ∧ logs (Receive env s uSize).2.2 = []) := by
  by_cases h : (env.SSL_read s.m_pSSL (toInt uSize)).1 < 0
  · have h2 : ¬ 0 ≤ (env.SSL_read s.m_pSSL (toInt uSize)).1 := not_le.mpr h
    have h3 : (env.SSL_read s.m_pSSL (toInt uSize)).1 ≠ 0 := ne_of_lt h
    have e : Receive env s uSize = ((env.SSL_read s.m_pSSL (toInt uSize)).1,
        (env.SSL_read s.m_pSSL (toInt uSize)).2,
        [Event.SSL_read s.m_pSSL (toInt uSize),
         Event.SSL_get_error s.m_pSSL (env.SSL_read s.m_pSSL (toInt uSize)).1,
         Event.Log (errorMessage "[TCPSSLServer][Error] SSL_read failed"
           (env.SSL_read s.m_pSSL (toInt uSize)).1
           (env.GetSSLErrorString
             (env.SSL_get_error s.m_pSSL (env.SSL_read s.m_pSSL (toInt uSize)).1)))]) := by
      unfold Receive
      simp only [h, if_true, StringFormat_read]
    rw [e]
    refine ⟨rfl, by simp [List.filter, Event.isSSL_read], ?_,
      by simp [logs_cons, logs_nil, Event.logMsg, h2], fun h0 => absurd h0 h3⟩
    simp only [h, iff_true]
    exact ⟨_, rfl, beginsWith_errorMessage _ _ _, rfl⟩
  · have h2 : 0 ≤ (env.SSL_read s.m_pSSL (toInt uSize)).1 := not_lt.mp h
    have e : Receive env s uSize = ((env.SSL_read s.m_pSSL (toInt uSize)).1,
        (env.SSL_read s.m_pSSL (toInt uSize)).2,
        [Event.SSL_read s.m_pSSL (toInt uSize)]) := by
      unfold Receive
      simp only [h, if_false]
    rw [e]
    refine ⟨rfl, by simp [List.filter, Event.isSSL_read], ?_,
      by simp [logs_cons, logs_nil, Event.logMsg, h2],
      fun h0 => ⟨h0, by simp [logs_cons, logs_nil, Event.logMsg]⟩⟩
    simp [logs_cons, logs_nil, Event.logMsg, h]

/-- C5, concrete run: with `demoEngine` a read of size 0 yields 0, which
`Receive` returns without logging. -/
theorem Receive_result_and_log_witness :
    (demoEngine.SSL_read freshSocket.m_pSSL (toInt 0)).1 = 0
    ∧ ((Receive demoEngine freshSocket 0).1 = 0
        ∧ logs (Receive demoEngine freshSocket 0).2.2 = []) :=
  ⟨by decide, (Receive_result_and_log demoEngine freshSocket 0).2.2.2.2 (by decide)⟩

/-! ## Disconnect -/

/-- C10: for every client socket and every behaviour of the collaborators,
`Disconnect` returns true and performs exactly two calls in this order:
`ShutdownSSL` on the client socket, then `m_TCPServer.Disconnect` on the
descriptor the socket then holds, which is the caller's descriptor whenever
`ShutdownSSL` leaves `m_SockFd` alone. -/
theorem Disconnect_always_true (env : Engine) (s : SSLSocket) :
    (Disconnect env s).1 = true
    ∧ (Disconnect env s).2.2
        = [Event.ShutdownSSL s, Event.TCPDisconnect (env.ShutdownSSL s).m_SockFd]
    ∧ (Disconnect env s).2.1 = env.ShutdownSSL s
    ∧ ((env.ShutdownSSL s).m_SockFd = s.m_SockFd →
        (Disconnect env s).2.2 = [Event.ShutdownSSL s, Event.TCPDisconnect s.m_SockFd]) := by
  refine ⟨rfl, rfl, rfl, ?_⟩
  intro h
  unfold Disconnect
  simp only [h]

/-- C10, concrete run: `demoEngine` keeps the descriptor in `ShutdownSSL`, so
`Disconnect` closes the caller's descriptor after the shutdown. -/
theorem Disconnect_always_true_witness :
    (demoEngine.ShutdownSSL freshSocket).m_SockFd = freshSocket.m_SockFd
    ∧ (Disconnect demoEngine freshSocket).2.2
        = [Event.ShutdownSSL freshSocket, Event.TCPDisconnect freshSocket.m_SockFd] :=
  ⟨by decide, (Disconnect_always_true demoEngine freshSocket).2.2.2 (by decide)⟩

end TCPSSLServer
